import Mathlib

/-!
Verification development for the session and credential lifecycle subsystem
of the desktop application (electron/AuthManager.ts, electron/authHandler.ts).

The TypeScript source is shallowly embedded: each method becomes a pure Lean
function over an explicit state (in-memory `AuthState`, plus the single
persisted credential file modelled as `Option String`).  JavaScript runtime
primitives that the code calls (JSON.parse, decodeURIComponent, parseInt,
safeStorage encryption, the HTTP layer, the filesystem and the clock) are
modelled as fields of an `Env` record: the embedded functions are quantified
over every possible behaviour of those primitives.  A thrown JS exception is
modelled as an `Option`/flag result at the exact point the source can throw,
and every `try`/`catch` of the source is mirrored by the corresponding
branch.
-/

/-! ## Character-list string helpers

The source manipulates URLs with `String.prototype.startsWith`,
`String.prototype.replace` (of a leading scheme) and `String.prototype.split`
on single-character separators.  These are embedded as structurally recursive
functions on `List Char` so that concrete instances reduce in the kernel. -/

/-- `leadChars p s` is true when the character list `p` is an initial segment
of `s` (the model of `String.prototype.startsWith`). -/
def leadChars : List Char → List Char → Bool
  | [], _ => true
  | _ :: _, [] => false
  | a :: as, b :: bs => if a = b then leadChars as bs else false

/-- `String.prototype.startsWith` on whole strings. -/
def strStartsWith (s p : String) : Bool :=
  leadChars p.data s.data

/-- `JS String.prototype.split` with a single-character separator:
`"a?b?c".split('?') = ["a","b","c"]`, `"".split('?') = [""]`. -/
def splitChars (c : Char) : List Char → List (List Char)
  | [] => [[]]
  | a :: as =>
    let r := splitChars c as
    if a = c then [] :: r
    else
      match r with
      | [] => [[a]]
      | h :: t => (a :: h) :: t

/-- Break a character list at the first occurrence of `c`; the second
component is `none` when `c` does not occur.  This is how `URLSearchParams`
separates a `key=value` pair at its first `=`. -/
def breakOnChar (c : Char) : List Char → List Char × Option (List Char)
  | [] => ([], none)
  | a :: as =>
    if a = c then ([], some as)
    else
      let r := breakOnChar c as
      (a :: r.1, r.2)

/-! ## Data model -/

/-- An opaque, JSON-compatible user profile value (`user: any` in the
source); treated as a value type and never inspected by the subsystem. -/
structure UserProfile where
  raw : String
deriving DecidableEq, Repr

/-- A JavaScript number as produced by `parseInt`: either `NaN` or an
integer. -/
inductive JsNum
  | nan
  | val (n : Int)
deriving DecidableEq, Repr

/-- `AuthData` of authHandler.ts / AuthManager.ts: the payload of a
successful auth callback. -/
structure AuthData where
  token : String
  user : Option UserProfile
  expiresAt : Option JsNum
deriving DecidableEq, Repr

/-- `AuthState` of AuthManager.ts: the in-memory session state.  `none`
models JavaScript `null`. -/
structure AuthState where
  isAuthenticated : Bool
  user : Option UserProfile
  token : Option String
deriving DecidableEq, Repr

/-- The JSON record persisted by `saveAuthState` and read back by
`loadStoredAuth`.  Every field is optional because `JSON.parse` of an
arbitrary (possibly corrupt or foreign) file can leave any of them
`undefined`. -/
structure StoredAuthData where
  token : Option String
  user : Option UserProfile
  timestamp : Option Int
  expiresAt : Option JsNum
deriving DecidableEq, Repr

/-- The event delivered by the protocol callback router to its registered
callbacks: `onSuccess(data)` or `onError(message)`. -/
inductive AuthEvent
  | success (data : AuthData)
  | error (msg : String)
deriving DecidableEq, Repr

/-- Outcome of one axios call: either a thrown transport error (network
failure or the 10s timeout, and also axios's rejection of non-2xx statuses)
or a response with a status code and a parsed body. -/
inductive HttpResult (β : Type)
  | networkError
  | response (status : Nat) (body : β)
deriving DecidableEq, Repr

/-- Body of `POST /api/auth/verify-token`: the code only reads
`response.data?.success` and compares it to `true` with `===`. -/
structure VerifyBody where
  success : Option Bool
deriving DecidableEq, Repr

/-- Body of `GET /api/auth/profile`: the code reads `response.data?.success`
and `response.data.data`. -/
structure ProfileBody where
  success : Option Bool
  data : Option UserProfile
deriving DecidableEq, Repr

/-- Body of `POST /api/auth/refresh-token`.  The code reads
`response.data?.success` and `response.data.data?.customToken`; the wire
object may also carry a field spelled `newToken` (the name the spec
documents), so both possible fields of the `data.data` object are part of
the input space. -/
structure RefreshBody where
  success : Option Bool
  newToken : Option String
  customToken : Option String
deriving DecidableEq, Repr

/-- Behaviour of the JavaScript runtime primitives and external collaborators
used by the embedded code.  `Option` results model a thrown exception as
`none` at the points where the source can throw. -/
structure Env where
  /-- `process.env.CUSTOM_PROTOCOL || 'paradigm'`. -/
  protocol : String
  /-- Lenient component decoding applied by `URLSearchParams` to keys and
  values (it never throws; malformed escapes are left as-is). -/
  urlDecode : String → String
  /-- `decodeURIComponent`; `none` models a thrown `URIError`. -/
  decodeURIComponentJS : String → Option String
  /-- `JSON.parse` of the decoded `user` parameter; `none` models a thrown
  `SyntaxError`. -/
  jsonParse : String → Option UserProfile
  /-- `parseInt` (total: yields `NaN` rather than throwing). -/
  parseIntJS : String → JsNum
  /-- Outcome of `POST /api/auth/verify-token` as a function of the bearer
  token. -/
  verifyResp : String → HttpResult VerifyBody
  /-- Outcome of `GET /api/auth/profile` as a function of the bearer
  token. -/
  profileResp : String → HttpResult ProfileBody
  /-- `safeStorage.isEncryptionAvailable()`. -/
  encryptionAvailable : Bool
  /-- `safeStorage.decryptString`; `none` models a thrown decryption
  error. -/
  decrypt : String → Option String
  /-- Serialisation of a record as written by `saveAuthState`
  (`JSON.stringify` composed with `encryptString` when encryption is
  available). -/
  encode : StoredAuthData → String
  /-- `JSON.parse` of the (decoded) file contents together with reading the
  record's fields; `none` models a thrown `SyntaxError`. -/
  parseStored : String → Option StoredAuthData
  /-- `Date.now()` in epoch milliseconds. -/
  now : Int
  /-- Whether `fs.unlinkSync` on the auth file throws. -/
  unlinkFails : Bool
  /-- Whether `fs.writeFileSync` on the auth file throws. -/
  writeFails : Bool

/-! ## ProtocolCallbackRouter (authHandler.ts) -/

/-- The registered scheme followed by `://`. -/
def schemeStr (env : Env) : String :=
  env.protocol ++ "://"

/-- `url.replace(protocol + '://', '').split('?')` under the guard that the
url starts with the scheme (so `replace` removes exactly that leading
occurrence). -/
def routeParts (env : Env) (url : String) : List (List Char) :=
  splitChars '?' (url.data.drop (schemeStr env).data.length)

/-- `pathPart`: the segment before the first `?`. -/
def pathPartOf (env : Env) (url : String) : String :=
  String.mk ((routeParts env url).headD [])

/-- `queryPart || ''`: the segment between the first and second `?`
(JavaScript array destructuring drops any later segments). -/
def queryPartOf (env : Env) (url : String) : String :=
  String.mk ((routeParts env url).getD 1 [])

/-- `URLSearchParams` over a query string: split on `&`, drop empty
segments, break each pair at its first `=` (a key with no `=` gets the empty
value), and decode both components. -/
def searchParamsPairs (dec : String → String) (q : String) : List (String × String) :=
  (splitChars '&' q.data).filterMap fun pc =>
    match pc with
    | [] => none
    | _ :: _ =>
      let r := breakOnChar '=' pc
      some (dec (String.mk r.1), dec (String.mk (r.2.getD [])))

/-- `URLSearchParams.get`: first value for the name, `none` for JS
`null`. -/
def searchParamsGet (name : String) (ps : List (String × String)) : Option String :=
  (ps.find? fun p => p.1 = name).map fun p => p.2

/-- `expiresParam ? parseInt(expiresParam) : undefined` (the empty string is
falsy). -/
def expiresOf (env : Env) : Option String → Option JsNum
  | none => none
  | some s => if s.isEmpty then none else some (env.parseIntJS s)

/-- Construction of the `authData` object literal in
`AuthHandler.handleAuthSuccess`.  The `user` field is guarded by JS
truthiness — `userParam ? JSON.parse(decodeURIComponent(userParam)) :
undefined` — so an absent *or empty* `user` parameter skips parsing and the
field is `undefined`; for a non-empty parameter either `decodeURIComponent`
or `JSON.parse` can throw (`none`). -/
def buildAuthData (env : Env) (token : String) (userParam expiresParam : Option String) :
    Option AuthData :=
  match userParam with
  | none => some ⟨token, none, expiresOf env expiresParam⟩
  | some up =>
    if up.isEmpty then some ⟨token, none, expiresOf env expiresParam⟩
    else
      match env.decodeURIComponentJS up with
      | none => none
      | some dec =>
        match env.jsonParse dec with
        | none => none
        | some u => some ⟨token, some u, expiresOf env expiresParam⟩

/-- `AuthHandler.handleAuthSuccess`, as routed through the enclosing
`try`/`catch` of `handleProtocolUrl`: a missing or empty `token` parameter
yields the no-token error; a throw while building `authData` is caught and
reported as `'Invalid callback URL format'`; otherwise the success callback
receives the data. -/
def routeAuthSuccess (env : Env) (pairs : List (String × String)) : AuthEvent :=
  match searchParamsGet "token" pairs with
  | none => .error "No authentication token received"
  | some t =>
    if t.isEmpty then .error "No authentication token received"
    else
      match buildAuthData env t (searchParamsGet "user" pairs) (searchParamsGet "expires" pairs) with
      | none => .error "Invalid callback URL format"
      | some d => .success d

/-- `AuthHandler.handleAuthError`: `error` defaults to `'Authentication
failed'` when absent or empty, and a non-empty `error_description` is
appended after `': '`. -/
def routeAuthError (pairs : List (String × String)) : AuthEvent :=
  let e :=
    match searchParamsGet "error" pairs with
    | none => "Authentication failed"
    | some s => if s.isEmpty then "Authentication failed" else s
  match searchParamsGet "error_description" pairs with
  | none => .error e
  | some d => if d.isEmpty then .error e else .error (e ++ ": " ++ d)

/-- `AuthHandler.handleProtocolUrl`: a url not starting with the registered
scheme is ignored (`none`), the path dispatches to exactly `auth-success`
and `auth-error`, and any other path is only logged — no callback fires
(`none`).  URL fragments (`#`) are not modelled. -/
def route (env : Env) (url : String) : Option AuthEvent :=
  if strStartsWith url (schemeStr env) then
    if pathPartOf env url = "auth-success" then
      some (routeAuthSuccess env (searchParamsPairs env.urlDecode (queryPartOf env url)))
    else if pathPartOf env url = "auth-error" then
      some (routeAuthError (searchParamsPairs env.urlDecode (queryPartOf env url)))
    else none
  else none

/-! ## SessionValidator (AuthManager network calls) -/

/-- `AuthManager.validateTokenWithBackend`: the `catch` returns `false` for
any thrown transport error/timeout, otherwise the result is
`response.status === 200 && response.data?.success === true`.  The function
is total: it never propagates an exception. -/
def validateTokenWithBackend : HttpResult VerifyBody → Bool
  | .networkError => false
  | .response status body => decide (status = 200 ∧ body.success = some true)

/-- `AuthManager.getUserDataFromBackend`: returns `response.data.data` on a
200 response with `success === true`, `null` otherwise (including thrown
errors). -/
def getUserDataFromBackend : HttpResult ProfileBody → Option UserProfile
  | .networkError => none
  | .response status body =>
    if status = 200 ∧ body.success = some true then body.data else none

/-! ## CredentialStore (AuthManager storage methods)

The single persisted file `auth.dat` is modelled as `Option String`: `none`
when the file does not exist, `some bytes` otherwise. -/

/-- `30 * 24 * 60 * 60 * 1000` milliseconds. -/
def maxAgeMs : Int := 30 * 24 * 60 * 60 * 1000

/-- `AuthManager.clearStoredAuth`: deletes the file when it exists; a thrown
filesystem error is caught and swallowed, leaving the file in place. -/
def clearStoredAuth (env : Env) : Option String → Option String
  | none => none
  | some c => if env.unlinkFails then some c else none

/-- The decryption step of `loadStoredAuth`: with encryption available a
failed `decryptString` falls back to interpreting the raw bytes as UTF-8
plaintext; without encryption the bytes are read as plaintext directly. -/
def decodeFileContent (env : Env) (content : String) : String :=
  if env.encryptionAvailable then
    match env.decrypt content with
    | some s => s
    | none => content
  else content

/-- `AuthManager.loadStoredAuth`: result value and the file afterwards.
Missing file yields `null`; a parse failure hits the outer `catch`, which
clears the stored data and yields `null`; a record whose `timestamp` is more
than 30 days before `now` is cleared and yields `null` (a missing
`timestamp` makes the age comparison `NaN > maxAge`, which is false).  The
function never propagates an exception. -/
def loadStoredAuth (env : Env) : Option String → Option StoredAuthData × Option String
  | none => (none, none)
  | some content =>
    match env.parseStored (decodeFileContent env content) with
    | none => (none, clearStoredAuth env (some content))
    | some r =>
      match r.timestamp with
      | some t =>
        if env.now - t > maxAgeMs then (none, clearStoredAuth env (some content))
        else (some r, some content)
      | none => (some r, some content)

/-- The record assembled by `AuthManager.saveAuthState`:
`{ token, user: authData.user || this.authState.user, timestamp: Date.now(),
expiresAt }`, where `currentUser` is `this.authState.user` at the time of
the call. -/
def saveRecord (env : Env) (d : AuthData) (currentUser : Option UserProfile) : StoredAuthData :=
  { token := some d.token
    user := match d.user with | some u => some u | none => currentUser
    timestamp := some env.now
    expiresAt := d.expiresAt }

/-! ## SessionStateMachine (AuthManager state transitions) -/

/-- JavaScript truthiness of `this.authState.token` (`string | null`): false
for `null` and for the empty string. -/
def tokenTruthy : Option String → Bool
  | none => false
  | some s => !s.isEmpty

/-- `AuthManager.clearAuthState`: reset the in-memory state and clear the
stored file.  Total — `clearStoredAuth` swallows filesystem errors. -/
def clearAuthState (env : Env) (s : AuthState × Option String) : AuthState × Option String :=
  (⟨false, none, none⟩, clearStoredAuth env s.2)

/-- `AuthManager.logout`: clears local state; its `catch` would clear again,
but `clearAuthState` cannot throw, so `logout` never propagates an error. -/
def logout (env : Env) (s : AuthState × Option String) : AuthState × Option String :=
  clearAuthState env s

/-- `AuthManager.handleAuthSuccess` (state, file afterwards, and whether the
method threw).  Validation failure or missing user data throws before any
state change; otherwise the in-memory state is updated *before*
`saveAuthState`, so a failed write still leaves the new state in place and
rethrows. -/
def handleAuthSuccessMgr (env : Env) (st : AuthState) (fs : Option String) (d : AuthData) :
    AuthState × Option String × Bool :=
  if validateTokenWithBackend (env.verifyResp d.token) then
    match getUserDataFromBackend (env.profileResp d.token) with
    | none => (st, fs, true)
    | some u =>
      let st' : AuthState := ⟨true, some u, some d.token⟩
      if env.writeFails then (st', fs, true)
      else (st', some (env.encode (saveRecord env d st'.user)), false)
  else (st, fs, true)

/-- `AuthManager.initialize`: load the stored credential; when present with
a truthy token, validate it and fetch fresh user data, restoring the
authenticated state on success and clearing everything on any failure;
otherwise leave the state untouched. -/
def initFromStored (env : Env) (st : AuthState)
    (L : Option StoredAuthData × Option String) : AuthState × Option String :=
  match L.1 with
  | none => (st, L.2)
  | some r =>
    match r.token with
    | none => (st, L.2)
    | some tok =>
      if tok.isEmpty then (st, L.2)
      else if validateTokenWithBackend (env.verifyResp tok) then
        match getUserDataFromBackend (env.profileResp tok) with
        | some u => (⟨true, some u, some tok⟩, L.2)
        | none => clearAuthState env (st, L.2)
      else clearAuthState env (st, L.2)

/-- `AuthManager.initialize` itself: load the stored credential, then
dispatch on the loaded value as above. -/
def initAuthManager (env : Env) (s : AuthState × Option String) : AuthState × Option String :=
  initFromStored env s.1 (loadStoredAuth env s.2)

/-- `AuthManager.refreshToken`: result flag, state and file afterwards.  A
falsy in-memory token returns `false` before any network call; a transport
error, non-200 status, missing `success === true`, or a falsy
`data.data?.customToken` returns `false` with nothing changed; on success
the file is rewritten first (`saveAuthState`; a thrown write is caught and
yields `false` with the in-memory token still unchanged) and then the
in-memory token is replaced. -/
def refreshToken (env : Env) (st : AuthState) (fs : Option String)
    (resp : HttpResult RefreshBody) : Bool × AuthState × Option String :=
  if tokenTruthy st.token then
    match resp with
    | .networkError => (false, st, fs)
    | .response status body =>
      if status = 200 ∧ body.success = some true then
        match body.customToken with
        | none => (false, st, fs)
        | some nt =>
          if nt.isEmpty then (false, st, fs)
          else if env.writeFails then (false, st, fs)
          else (true, { st with token := some nt },
                some (env.encode (saveRecord env ⟨nt, st.user, none⟩ st.user)))
      else (false, st, fs)
  else (false, st, fs)

/-- The operations that drive the session state machine: startup
initialisation, an incoming protocol callback url, logout, and a refresh
attempt. -/
inductive Op
  | initOp
  | callbackOp (url : String)
  | logoutOp
  | refreshOp (resp : HttpResult RefreshBody)

/-- One transition of the composed system (AppState wiring): a callback url
is routed by `AuthHandler.handleProtocolUrl`; a success event runs
`AuthManager.handleAuthSuccess` (whose throw is caught by
`AppState.handleAuthSuccess`, changing nothing further); an error event and
an ignored url leave the auth state untouched. -/
def step (env : Env) (op : Op) (s : AuthState × Option String) : AuthState × Option String :=
  match op with
  | .initOp => initAuthManager env s
  | .callbackOp url =>
    match route env url with
    | some (.success d) =>
      let r := handleAuthSuccessMgr env s.1 s.2 d
      (r.1, r.2.1)
    | some (.error _) => s
    | none => s
  | .logoutOp => logout env s
  | .refreshOp resp =>
    let r := refreshToken env s.1 s.2 resp
    (r.2.1, r.2.2)

/-- The session-state invariant of the spec: `Authenticated` implies a
non-empty token (`none` and `""` are both excluded). -/
def AuthInvariant (st : AuthState) : Prop :=
  st.isAuthenticated = true → tokenTruthy st.token = true

/-! ## Concrete environments used by witnesses and counterexamples -/

/-- A benign runtime environment: default scheme, identity decoding,
always-succeeding JSON parsing, a backend that accepts every token, and a
healthy filesystem. -/
def sampleEnv : Env where
  protocol := "paradigm"
  urlDecode := fun s => s
  decodeURIComponentJS := fun s => some s
  jsonParse := fun s => some ⟨s⟩
  parseIntJS := fun _ => JsNum.nan
  verifyResp := fun _ => .response 200 ⟨some true⟩
  profileResp := fun _ => .response 200 ⟨some true, some ⟨"profile"⟩⟩
  encryptionAvailable := false
  decrypt := fun s => some s
  encode := fun _ => "encoded"
  parseStored := fun _ => none
  now := 1000
  unlinkFails := false
  writeFails := false

/-- `sampleEnv` with a `JSON.parse` that throws on every input. -/
def envJsonFail : Env := { sampleEnv with jsonParse := fun _ => none }

/-- `sampleEnv` with encryption available, a `decryptString` that always
throws, and a file whose raw bytes parse as a fresh plaintext record. -/
def envDecryptFail : Env := { sampleEnv with
  encryptionAvailable := true
  decrypt := fun _ => none
  parseStored := fun _ => some ⟨some "tok", none, some 1000, none⟩ }

/-- `sampleEnv` where the stored record was written at epoch 0 and the clock
is past the 30-day limit. -/
def envStale : Env := { sampleEnv with
  parseStored := fun _ => some ⟨some "tok", none, some 0, none⟩
  now := maxAgeMs + 1 }

/-- `sampleEnv` with encryption available and a `decryptString` that always
throws (the fallback plaintext parse also fails, as in `sampleEnv`). -/
def envCorrupt : Env := { sampleEnv with
  encryptionAvailable := true
  decrypt := fun _ => none }

/-- `sampleEnv` with an `fs.unlinkSync` that always throws. -/
def envUnlink : Env := { sampleEnv with unlinkFails := true }

/-! ## Helper lemmas -/

/-- `buildAuthData` passes its token argument through unchanged. -/
theorem buildAuthData_token (env : Env) (t : String) (up ep : Option String) (d : AuthData)
    (h : buildAuthData env t up ep = some d) : d.token = t := by
  unfold buildAuthData at h
  cases up with
  | none =>
    simp only [Option.some.injEq] at h
    subst h; rfl
  | some u =>
    dsimp only at h
    cases he : u.isEmpty with
    | true =>
      simp only [he, if_true, Option.some.injEq] at h
      subst h; rfl
    | false =>
      simp only [he, Bool.false_eq_true, if_false] at h
      cases hdec : env.decodeURIComponentJS u with
      | none => rw [hdec] at h; cases h
      | some s =>
        rw [hdec] at h
        dsimp only at h
        cases hj : env.jsonParse s with
        | none => rw [hj] at h; cases h
        | some w =>
          rw [hj] at h
          simp only [Option.some.injEq] at h
          subst h; rfl

/-- The success handler only emits a success event with a non-empty token. -/
theorem routeAuthSuccess_token (env : Env) (pairs : List (String × String)) (d : AuthData)
    (h : routeAuthSuccess env pairs = .success d) : d.token.isEmpty = false := by
  unfold routeAuthSuccess at h
  cases htok : searchParamsGet "token" pairs with
  | none => rw [htok] at h; cases h
  | some t =>
    rw [htok] at h
    dsimp only at h
    cases he : t.isEmpty with
    | true => simp [he] at h
    | false =>
      simp only [he, Bool.false_eq_true, if_false] at h
      cases hb : buildAuthData env t (searchParamsGet "user" pairs)
          (searchParamsGet "expires" pairs) with
      | none => rw [hb] at h; cases h
      | some d' =>
        rw [hb] at h
        cases h
        rw [buildAuthData_token env t _ _ _ hb]
        exact he

/-- The error handler never emits a success event. -/
theorem routeAuthError_no_success (pairs : List (String × String)) (d : AuthData) :
    routeAuthError pairs ≠ .success d := by
  unfold routeAuthError
  cases searchParamsGet "error_description" pairs with
  | none => simp
  | some s =>
    by_cases h : s.isEmpty = true
    · simp [h]
    · simp [h]

/-- A routed success event always carries a non-empty token (the router
rejects a missing or empty `token` parameter before any callback fires). -/
theorem route_success_token (env : Env) (url : String) (d : AuthData)
    (h : route env url = some (.success d)) : d.token.isEmpty = false := by
  unfold route at h
  split at h
  · split at h
    · exact routeAuthSuccess_token env _ d (by injection h)
    · split at h
      · exact absurd (by injection h) (routeAuthError_no_success _ d)
      · cases h
  · cases h

/-- `AuthManager.handleAuthSuccess` preserves the invariant provided the
incoming token is non-empty (which the router guarantees). -/
theorem handleAuthSuccessMgr_inv (env : Env) (st : AuthState) (fs : Option String)
    (d : AuthData) (hinv : AuthInvariant st) (htok : d.token.isEmpty = false) :
    AuthInvariant (handleAuthSuccessMgr env st fs d).1 := by
  unfold handleAuthSuccessMgr
  split
  · cases hu : getUserDataFromBackend (env.profileResp d.token) with
    | none => exact hinv
    | some u =>
      dsimp only
      split
      · intro _
        simp [tokenTruthy, htok]
      · intro _
        simp [tokenTruthy, htok]
  · exact hinv

/-- `AuthManager.initialize` preserves the invariant: it only sets
`isAuthenticated` after the stored token passed the truthiness check. -/
theorem initFromStored_inv (env : Env) (st : AuthState)
    (L : Option StoredAuthData × Option String) (hinv : AuthInvariant st) :
    AuthInvariant (initFromStored env st L).1 := by
  unfold initFromStored
  cases hL : L.1 with
  | none => exact hinv
  | some r =>
    dsimp only
    cases hr : r.token with
    | none => exact hinv
    | some tok =>
      dsimp only
      cases he : tok.isEmpty with
      | true => simp only [he, if_true]; exact hinv
      | false =>
        simp only [he, Bool.false_eq_true, if_false]
        split
        · cases hu : getUserDataFromBackend (env.profileResp tok) with
          | some u =>
            intro _
            simp [tokenTruthy, he]
          | none =>
            intro hFalse
            cases hFalse
        · intro hFalse
          cases hFalse

/-- `AuthManager.initialize` preserves the invariant. -/
theorem initAuthManager_inv (env : Env) (s : AuthState × Option String)
    (hinv : AuthInvariant s.1) : AuthInvariant (initAuthManager env s).1 :=
  initFromStored_inv env s.1 (loadStoredAuth env s.2) hinv

/-- `AuthManager.refreshToken` preserves the invariant: the token is only
replaced by a non-empty one, and `isAuthenticated` is never changed. -/
theorem refreshToken_inv (env : Env) (st : AuthState) (fs : Option String)
    (resp : HttpResult RefreshBody) (hinv : AuthInvariant st) :
    AuthInvariant (refreshToken env st fs resp).2.1 := by
  unfold refreshToken
  split
  · cases resp with
    | networkError => exact hinv
    | response status body =>
      dsimp only
      split
      · cases hct : body.customToken with
        | none => exact hinv
        | some nt =>
          dsimp only
          cases he : nt.isEmpty with
          | true => simp only [he, if_true]; exact hinv
          | false =>
            simp only [he, Bool.false_eq_true, if_false]
            split
            · exact hinv
            · intro _
              simp [tokenTruthy, he]
      · exact hinv
  · exact hinv

/-- C1: whenever the in-memory session state has `isAuthenticated = true`,
its token is a non-empty string: every operation of the composed system
(startup initialisation, a routed protocol callback, logout, refresh)
preserves this invariant, and the router only ever emits a success event
carrying a non-empty token (it rejects success callbacks lacking a token
before any state change). -/
theorem c1_authenticated_nonempty_token :
    (∀ (env : Env) (op : Op) (s : AuthState × Option String),
      AuthInvariant s.1 → AuthInvariant (step env op s).1) ∧
    (∀ (env : Env) (url : String) (d : AuthData),
      route env url = some (.success d) → d.token.isEmpty = false) := by
  constructor
  · intro env op s hinv
    cases op with
    | initOp => exact initAuthManager_inv env s hinv
    | callbackOp url =>
      unfold step
      dsimp only
      cases hr : route env url with
      | none => exact hinv
      | some ev =>
        cases ev with
        | success d =>
          exact handleAuthSuccessMgr_inv env s.1 s.2 d hinv
            (route_success_token env url d hr)
        | error m => exact hinv
    | logoutOp =>
      intro hFalse
      cases hFalse
    | refreshOp resp => exact refreshToken_inv env s.1 s.2 resp hinv
  · exact route_success_token

/-- C1 witness: running the composed system on a concrete success callback
from the unauthenticated initial state keeps the invariant. -/
theorem c1_witness :
    AuthInvariant (step sampleEnv (Op.callbackOp "paradigm://auth-success?token=abc123")
      (⟨false, none, none⟩, none)).1 :=
  c1_authenticated_nonempty_token.1 sampleEnv (Op.callbackOp "paradigm://auth-success?token=abc123")
    (⟨false, none, none⟩, none) (fun h => nomatch h)

/-- C2 counterexample: a fully successful refresh response whose data object
carries the new token under the spec's field name `newToken` (and no
`customToken`) is rejected — `refreshToken` resolves `false` and neither the
in-memory token nor the stored file changes — because the code reads
`response.data.data?.customToken`, not `newToken`. -/
theorem c2_newToken_cex :
    (RefreshBody.mk (some true) (some "fresh") none).newToken = some "fresh" ∧
    (RefreshBody.mk (some true) (some "fresh") none).success = some true ∧
    refreshToken sampleEnv ⟨true, none, some "old"⟩ none
      (.response 200 ⟨some true, some "fresh", none⟩) =
      (false, ⟨true, none, some "old"⟩, none) := by decide

/-- C2 (amended): the new token is read from the field named `customToken`
of the refresh response's data object.  `refreshToken` resolves `true`
exactly when a token is held, the response is a 200 with `success == true`,
`customToken` is present and non-empty, and the credential write succeeds;
in that case the stored credential is rewritten with the new token and the
in-memory token is replaced; in every other case it resolves `false`. -/
theorem c2_refresh_reads_customToken :
    ∀ (env : Env) (st : AuthState) (fs : Option String) (resp : HttpResult RefreshBody),
      ((refreshToken env st fs resp).1 = true ↔
        tokenTruthy st.token = true ∧ env.writeFails = false ∧
          ∃ body nt, resp = .response 200 body ∧ body.success = some true ∧
            body.customToken = some nt ∧ nt.isEmpty = false) ∧
      (∀ body nt, resp = .response 200 body → body.success = some true →
        body.customToken = some nt → nt.isEmpty = false →
        tokenTruthy st.token = true → env.writeFails = false →
        refreshToken env st fs resp =
          (true, { st with token := some nt },
            some (env.encode (saveRecord env ⟨nt, st.user, none⟩ st.user)))) := by
  intro env st fs resp
  have hB : ∀ body nt, resp = .response 200 body → body.success = some true →
      body.customToken = some nt → nt.isEmpty = false →
      tokenTruthy st.token = true → env.writeFails = false →
      refreshToken env st fs resp =
        (true, { st with token := some nt },
          some (env.encode (saveRecord env ⟨nt, st.user, none⟩ st.user))) := by
    intro body nt hresp hsucc hct hne htt hwf
    subst hresp
    unfold refreshToken
    simp [htt, hsucc, hct, hne, hwf]
  refine ⟨⟨?_, ?_⟩, hB⟩
  · intro h
    unfold refreshToken at h
    cases htt : tokenTruthy st.token with
    | false => rw [htt] at h; simp at h
    | true =>
      rw [htt] at h
      simp only [if_true] at h
      cases resp with
      | networkError => simp at h
      | response status body =>
        dsimp only at h
        by_cases hcond : status = 200 ∧ body.success = some true
        · rw [if_pos hcond] at h
          cases hct : body.customToken with
          | none => rw [hct] at h; simp at h
          | some nt =>
            rw [hct] at h
            dsimp only at h
            cases he : nt.isEmpty with
            | true => rw [he] at h; simp at h
            | false =>
              rw [he] at h
              simp only [Bool.false_eq_true, if_false] at h
              cases hwf : env.writeFails with
              | true => rw [hwf] at h; simp at h
              | false =>
                refine ⟨rfl, rfl, body, nt, ?_, hcond.2, hct, he⟩
                rw [hcond.1]
        · rw [if_neg hcond] at h
          simp at h
  · rintro ⟨htt, hwf, body, nt, hresp, hsucc, hct, hne⟩
    rw [hB body nt hresp hsucc hct hne htt hwf]

/-- C2 witness: a concrete successful refresh carrying `customToken`
updates the in-memory token, rewrites the stored file and resolves
`true`. -/
theorem c2_witness :
    refreshToken sampleEnv ⟨true, none, some "old"⟩ none
      (.response 200 ⟨some true, none, some "fresh"⟩) =
      (true, ⟨true, none, some "fresh"⟩,
        some (sampleEnv.encode (saveRecord sampleEnv ⟨"fresh", none, none⟩ none))) :=
  (c2_refresh_reads_customToken sampleEnv ⟨true, none, some "old"⟩ none
      (.response 200 ⟨some true, none, some "fresh"⟩)).2
    ⟨some true, none, some "fresh"⟩ "fresh" rfl rfl rfl rfl rfl rfl

/-- C3: `validateTokenWithBackend` returns `true` exactly when the HTTP
response arrived with status 200 and an explicit `success == true` flag in
the body; every transport error or timeout (the thrown branch) and every
non-200 status yields `false`.  The embedding is a total function into
`Bool`, reflecting that the method never throws (its `catch` returns
`false`). -/
theorem c3_validate_fail_closed :
    ∀ r : HttpResult VerifyBody,
      validateTokenWithBackend r = true ↔
        ∃ body, r = .response 200 body ∧ body.success = some true := by
  intro r
  cases r with
  | networkError =>
    constructor
    · intro h; cases h
    · rintro ⟨body, hb, _⟩; cases hb
  | response status body =>
    constructor
    · intro h
      unfold validateTokenWithBackend at h
      rw [decide_eq_true_eq] at h
      exact ⟨body, by rw [h.1], h.2⟩
    · rintro ⟨body', hb, hs⟩
      cases hb
      unfold validateTokenWithBackend
      rw [decide_eq_true_eq]
      exact ⟨rfl, hs⟩

/-- C3 witness: a 200 response with `success: true` validates; evaluated on
a concrete response via the theorem. -/
theorem c3_witness :
    validateTokenWithBackend (.response 200 ⟨some true⟩) = true :=
  (c3_validate_fail_closed (.response 200 ⟨some true⟩)).mpr ⟨⟨some true⟩, rfl, rfl⟩

/-- C4 counterexample: a file that *cannot be decrypted* (`decryptString`
throws) is not treated as corrupt when its raw bytes happen to parse as a
fresh plaintext record: `loadStoredAuth` returns that record and the file is
left in place, contradicting "deletes the file and returns null". -/
theorem c4_decrypt_fallback_cex :
    envDecryptFail.encryptionAvailable = true ∧
    envDecryptFail.decrypt "blob" = none ∧
    loadStoredAuth envDecryptFail (some "blob") =
      (some ⟨some "tok", none, some 1000, none⟩, some "blob") := by decide

/-- C4 (amended): on decryption failure `load()` first falls back to
interpreting the raw bytes as plaintext; only when that fallback also fails
to parse does it treat the file as corrupt — deleting it and returning
"no credential" (`none`) instead of raising an error on the startup path. -/
theorem c4_corrupt_file_self_heal :
    ∀ (env : Env) (content : String),
      env.encryptionAvailable = true →
      env.decrypt content = none →
      env.parseStored content = none →
      env.unlinkFails = false →
      loadStoredAuth env (some content) = (none, none) := by
  intro env content hea hdec hparse hul
  unfold loadStoredAuth decodeFileContent clearStoredAuth
  simp [hea, hdec, hparse, hul]

/-- C4 witness: a concrete undecryptable, unparsable file is deleted and
`load` yields no credential. -/
theorem c4_witness :
    loadStoredAuth envCorrupt (some "garbage") = (none, none) :=
  c4_corrupt_file_self_heal envCorrupt "garbage" rfl rfl rfl rfl

/-- C5 counterexample: a success URI with a token whose `user` parameter
fails to JSON-parse does not degrade to "field absent" — the thrown parse
error is caught by `handleProtocolUrl`, which emits the Error event
`'Invalid callback URL format'` and no Success event. -/
theorem c5_user_parse_error_cex :
    route envJsonFail "paradigm://auth-success?token=abc123&user=xyz" =
      some (.error "Invalid callback URL format") := by decide

/-- C5 (amended): on a token-carrying success callback, a failure to
percent-decode or JSON-parse a *non-empty* `user` parameter yields the Error
event `'Invalid callback URL format'` (no Success event); an absent or
present-but-empty `user` parameter is falsy and degrades to "field absent",
with a Success event carrying the token still emitted — and in those cases
the optional `expires` parameter can never cause an error whatever it holds
(`parseInt` degrades to `NaN` rather than throwing). -/
theorem c5_optional_param_parse :
    (∀ (env : Env) (pairs : List (String × String)) (t up : String),
      searchParamsGet "token" pairs = some t → t.isEmpty = false →
      searchParamsGet "user" pairs = some up → up.isEmpty = false →
      (env.decodeURIComponentJS up).bind env.jsonParse = none →
      routeAuthSuccess env pairs = .error "Invalid callback URL format") ∧
    (∀ (env : Env) (pairs : List (String × String)) (t : String),
      searchParamsGet "token" pairs = some t → t.isEmpty = false →
      searchParamsGet "user" pairs = none →
      routeAuthSuccess env pairs =
        .success ⟨t, none, expiresOf env (searchParamsGet "expires" pairs)⟩) ∧
    (∀ (env : Env) (pairs : List (String × String)) (t : String),
      searchParamsGet "token" pairs = some t → t.isEmpty = false →
      searchParamsGet "user" pairs = some "" →
      routeAuthSuccess env pairs =
        .success ⟨t, none, expiresOf env (searchParamsGet "expires" pairs)⟩) := by
  refine ⟨?_, ?_, ?_⟩
  · intro env pairs t up htok hne hup hue hparse
    unfold routeAuthSuccess
    rw [htok]
    dsimp only
    rw [hne]
    simp only [Bool.false_eq_true, if_false]
    rw [hup]
    unfold buildAuthData
    dsimp only
    rw [hue]
    simp only [Bool.false_eq_true, if_false]
    cases hdec : env.decodeURIComponentJS up with
    | none => rfl
    | some s =>
      rw [hdec] at hparse
      simp only [Option.some_bind] at hparse
      dsimp only
      rw [hparse]
  · intro env pairs t htok hne hup
    unfold routeAuthSuccess
    rw [htok]
    dsimp only
    rw [hne]
    simp only [Bool.false_eq_true, if_false]
    rw [hup]
    unfold buildAuthData
    rfl
  · intro env pairs t htok hne hup
    unfold routeAuthSuccess
    rw [htok]
    dsimp only
    rw [hne]
    simp only [Bool.false_eq_true, if_false]
    rw [hup]
    unfold buildAuthData
    rfl

/-- C5 witness: all three cases at concrete inputs — a failing non-empty
`user` parse produces the format error, an unparsable `expires` still
produces a Success event carrying the token, and an empty `user` parameter
degrades to "field absent" with a Success event even under a `JSON.parse`
that would throw on every input. -/
theorem c5_witness :
    routeAuthSuccess envJsonFail [("token", "abc"), ("user", "xyz")] =
      .error "Invalid callback URL format" ∧
    routeAuthSuccess sampleEnv [("token", "abc"), ("expires", "zz")] =
      .success ⟨"abc", none, some JsNum.nan⟩ ∧
    routeAuthSuccess envJsonFail [("token", "abc"), ("user", "")] =
      .success ⟨"abc", none, none⟩ :=
  ⟨c5_optional_param_parse.1 envJsonFail [("token", "abc"), ("user", "xyz")] "abc" "xyz"
      rfl rfl rfl rfl rfl,
    c5_optional_param_parse.2.1 sampleEnv [("token", "abc"), ("expires", "zz")] "abc"
      rfl rfl rfl,
    c5_optional_param_parse.2.2 envJsonFail [("token", "abc"), ("user", "")] "abc"
      rfl rfl rfl⟩

/-- C6 counterexample: a URI with the registered scheme and the unknown path
`bogus` produces no event at all — in particular the error callback is not
invoked with `'Unknown auth callback path: bogus'`; the code only logs a
console warning in its `default` branch. -/
theorem c6_unknown_path_cex :
    route sampleEnv "paradigm://bogus?x=1" = none ∧
    route sampleEnv "paradigm://bogus?x=1" ≠
      some (.error "Unknown auth callback path: bogus") := by
  exact ⟨by decide, by decide⟩

/-- C6 (amended): for every URI with the registered scheme whose path is
neither `auth-success` nor `auth-error`, routing produces no event — the
unknown path is logged and ignored, and neither callback is invoked. -/
theorem c6_unknown_path_ignored :
    ∀ (env : Env) (url : String),
      strStartsWith url (schemeStr env) = true →
      pathPartOf env url ≠ "auth-success" →
      pathPartOf env url ≠ "auth-error" →
      route env url = none := by
  intro env url h1 h2 h3
  unfold route
  simp [h1, h2, h3]

/-- C6 witness: the amended claim evaluated on a concrete unknown-path
URI. -/
theorem c6_witness :
    route sampleEnv "paradigm://other-path?token=t" = none :=
  c6_unknown_path_ignored sampleEnv "paradigm://other-path?token=t"
    (by decide) (by decide) (by decide)

/-- C7: a stored record whose `timestamp` is more than 30 days before the
current clock is purged at load time: `loadStoredAuth` returns `none` and
the backing file no longer exists (given a filesystem whose delete
succeeds). -/
theorem c7_stale_credential_purged :
    ∀ (env : Env) (content : String) (r : StoredAuthData) (t : Int),
      env.parseStored (decodeFileContent env content) = some r →
      r.timestamp = some t →
      env.now - t > maxAgeMs →
      env.unlinkFails = false →
      loadStoredAuth env (some content) = (none, none) := by
  intro env content r t hp ht hage hul
  unfold loadStoredAuth
  dsimp only
  rw [hp]
  dsimp only
  rw [ht]
  dsimp only
  rw [if_pos hage]
  unfold clearStoredAuth
  simp [hul]

/-- C7 witness: a record written at epoch 0 loaded one millisecond past the
30-day limit is purged. -/
theorem c7_witness :
    loadStoredAuth envStale (some "blob") = (none, none) :=
  c7_stale_credential_purged envStale "blob" ⟨some "tok", none, some 0, none⟩ 0
    rfl rfl (by decide) rfl

/-- C8: from any authenticated state, a failed refresh — network error,
non-200 status, missing `success == true` flag, or missing token field in
the response — leaves the session state and the stored file exactly as they
were and resolves `false` (it never throws: the embedding is total). -/
theorem c8_failed_refresh_frame :
    ∀ (env : Env) (st : AuthState) (fs : Option String) (resp : HttpResult RefreshBody),
      st.isAuthenticated = true →
      (resp = .networkError ∨
        ∃ status body, resp = .response status body ∧
          (status ≠ 200 ∨ body.success ≠ some true ∨ body.customToken = none)) →
      refreshToken env st fs resp = (false, st, fs) := by
  intro env st fs resp _ hfail
  unfold refreshToken
  split
  · rcases hfail with hne | ⟨status, body, hresp, hbad⟩
    · subst hne; rfl
    · subst hresp
      dsimp only
      by_cases hcond : status = 200 ∧ body.success = some true
      · rcases hbad with h | h | h
        · exact absurd hcond.1 h
        · exact absurd hcond.2 h
        · rw [if_pos hcond, h]
      · rw [if_neg hcond]
  · rfl

/-- C8 witness: a concrete 500 response from the authenticated state changes
nothing and resolves `false`. -/
theorem c8_witness :
    refreshToken sampleEnv ⟨true, none, some "old"⟩ (some "file")
      (.response 500 ⟨some true, none, some "x"⟩) =
      (false, ⟨true, none, some "old"⟩, some "file") :=
  c8_failed_refresh_frame sampleEnv ⟨true, none, some "old"⟩ (some "file")
    (.response 500 ⟨some true, none, some "x"⟩) rfl
    (Or.inr ⟨500, ⟨some true, none, some "x"⟩, rfl, Or.inl (by decide)⟩)

/-- C9: `logout` never propagates an error (the embedding is a total
function: `clearStoredAuth` swallows the filesystem exception internally);
it always resets the in-memory state to
`{ isAuthenticated: false, user: null, token: null }`, and when deleting the
persisted file fails the file is simply left behind while the in-memory
logout still takes effect. -/
theorem c9_logout_always_resets :
    ∀ (env : Env) (s : AuthState × Option String),
      (logout env s).1 = ⟨false, none, none⟩ ∧
      (env.unlinkFails = true → (logout env s).2 = s.2) := by
  intro env s
  constructor
  · rfl
  · intro h
    unfold logout clearAuthState clearStoredAuth
    cases s.2 with
    | none => rfl
    | some c => simp [h]

/-- C9 witness: with a failing `unlinkSync`, logout still resets the
in-memory state and the file survives untouched. -/
theorem c9_witness :
    (logout envUnlink (⟨true, some ⟨"u"⟩, some "t"⟩, some "file")).1 =
      ⟨false, none, none⟩ ∧
    (logout envUnlink (⟨true, some ⟨"u"⟩, some "t"⟩, some "file")).2 = some "file" :=
  ⟨(c9_logout_always_resets envUnlink (⟨true, some ⟨"u"⟩, some "t"⟩, some "file")).1,
    (c9_logout_always_resets envUnlink (⟨true, some ⟨"u"⟩, some "t"⟩, some "file")).2 rfl⟩

/-- C10: with no token held (`token` is `null`), `refreshToken` returns
`false` immediately: the result is the same for every possible network
response — the shallow image of "no request is made" — and neither the
in-memory state nor the persisted file changes. -/
theorem c10_refresh_without_token :
    ∀ (env : Env) (st : AuthState) (fs : Option String) (resp : HttpResult RefreshBody),
      st.token = none →
      refreshToken env st fs resp = (false, st, fs) := by
  intro env st fs resp h
  unfold refreshToken
  rw [h]
  rfl

/-- C10 witness: the tokenless initial state refuses a refresh even when the
backend would have answered successfully. -/
theorem c10_witness :
    refreshToken sampleEnv ⟨false, none, none⟩ none
      (.response 200 ⟨some true, none, some "fresh"⟩) =
      (false, ⟨false, none, none⟩, none) :=
  c10_refresh_without_token sampleEnv ⟨false, none, none⟩ none
    (.response 200 ⟨some true, none, some "fresh"⟩) rfl
